import Mathlib

/-!
Shallow embedding of the citation data model and rendering logic of
`src/prompts.py`, of the retrieval tool of `src/mcp_retrieval.py`, and of
the worker / supervisor control loops described by the specification,
together with theorems about them.
-/

/-- Embedding of the pydantic model `AnswerStatement` (src/prompts.py).
`reference_url` and `reference_title` are `Optional[str]`, embedded as `Option String`. -/
structure AnswerStatement where
  reasoning : String
  answer_sentece : String
  reference_url : Option String
  reference_title : Option String
deriving Repr, DecidableEq

/-- Embedding of the pydantic model `AnswerWithCitations` (src/prompts.py). -/
structure AnswerWithCitations where
  statements : List AnswerStatement
deriving Repr, DecidableEq

/-- Python truthiness of an `Optional[str]` value: `None` and the empty string
are falsy, every other string is truthy.  This is the test performed by
`if statement.reference_url and statement.reference_title` in `format_response`. -/
def pyTruthy : Option String → Bool
  | none => false
  | some s => s != ""

/-- The body of the loop in `AnswerWithCitations.format_response`: the rendering
of a single statement.  When both the url and the title are truthy, the code
appends the f-string `" [[" title "](" url ")]"` to the sentence text. -/
def renderStatement (s : AnswerStatement) : String :=
  if pyTruthy s.reference_url && pyTruthy s.reference_title then
    s.answer_sentece ++ " [[" ++ s.reference_title.getD "" ++ "](" ++ s.reference_url.getD "" ++ ")]"
  else
    s.answer_sentece

/-- The `for statement in self.statements` loop of `format_response`, building
the `answer_text` list front to back. -/
def format_statements : List AnswerStatement → List String
  | [] => []
  | s :: rest => renderStatement s :: format_statements rest

/-- Embedding of `AnswerWithCitations.format_response` (src/prompts.py):
render every statement in order and join the lines with a newline. -/
def format_response (a : AnswerWithCitations) : String :=
  String.intercalate "\n" (format_statements a.statements)

/-- A cited statement taken verbatim from the first `CitationPrompt` example
in src/prompts.py: both a reference url and a reference title are present. -/
def climateStatement : AnswerStatement :=
  { reasoning := "The context provides specific details about the main topic."
    answer_sentece := "* The main topic is about climate change."
    reference_url := some "https://example.com/climate_change"
    reference_title := some "Climate Change" }

/-- An uncited statement taken verbatim from the `SummaryPrompt` example
in src/prompts.py: both reference fields are `None`. -/
def headingStatement : AnswerStatement :=
  { reasoning := "Question asks for the emperor of China, answer is entitled with his name."
    answer_sentece := "## Guangxu Emperor"
    reference_url := none
    reference_title := none }

/-- A statement with a reference url but no reference title: under the
all-or-nothing rule it must render as plain text. -/
def partialStatement : AnswerStatement :=
  { reasoning := "The context provides specific details about the main topic."
    answer_sentece := "* Climate change is a significant global challenge."
    reference_url := some "https://example.com/global_challenge"
    reference_title := none }

/-- A statement whose reference url is the empty string (a falsy value in
Python) while the title is a non-empty string. -/
def emptyUrlStatement : AnswerStatement :=
  { reasoning := "The context provides specific details about the main topic."
    answer_sentece := "* The main topic is about climate change."
    reference_url := some ""
    reference_title := some "Climate Change" }

/-- Embedding of the pydantic model `ClarificationInput` (src/prompts.py). -/
structure ClarificationInput where
  messages : List String
deriving Repr, DecidableEq

/-- Embedding of the pydantic model `ClarificationOutput` (src/prompts.py).
The model has no validator: any combination of field values is constructible. -/
structure ClarificationOutput where
  clarification_is_required : Bool
  clarifying_question : Option String
  final_statements : List String
deriving Repr, DecidableEq

/-- The pairing stated by the spec for `ClarificationOutput`: the clarifying
question is present exactly when clarification is required, and the final
statements are non-empty exactly when it is not. -/
def clarificationInvariant (c : ClarificationOutput) : Bool :=
  (c.clarifying_question.isSome == c.clarification_is_required) &&
  (!c.final_statements.isEmpty == !c.clarification_is_required)

/-- The four `ClarificationPrompt.examples` pairs of src/prompts.py, verbatim.
In the second example the source's two adjacent string literals concatenate
into a single list element, exactly as Python evaluates them. -/
def clarificationExamples : List (ClarificationInput × ClarificationOutput) :=
  [ (⟨["What is the capital of France?"]⟩,
     ⟨false, none, ["Capital of France"]⟩),
    (⟨["Tell me about the Python programming language.",
       "I want to know about its history and features."]⟩,
     ⟨false, none, ["Python programming language historyPython language features"]⟩),
    (⟨["What are the health benefits of eating apples?"]⟩,
     ⟨true,
      some "Are you interested in the nutritional benefits, or the benefits for specific health conditions?",
      []⟩),
    (⟨["Can you tell me about the book '1984'?",
       "I want to know about its author and main themes."]⟩,
     ⟨false, none, ["Book '1984' author", "Book '1984' main themes"]⟩) ]

/-- Embedding of the pydantic model `PlannerOutput` (src/prompts.py). -/
structure PlannerOutput where
  reasoning_on_topics : String
  expanded_topics : List String
  reasoning_on_plan : String
  plan : List String
deriving Repr, DecidableEq

/-- Modelled from the spec: the caller-side validation of a `PlannerOutput`.
The Planner contract requires exactly 3 pairwise-distinct plan steps and at
most 10 expanded topics, and an output violating this is rejected, never
truncated or padded.  No such validation exists in src/ (the repository ships
only the prompt and the output model), so the validator is taken from the
spec's words. -/
def validatePlannerOutput (p : PlannerOutput) : Except String PlannerOutput :=
  if p.plan.length ≠ 3 then Except.error "plan must have exactly 3 steps"
  else if ¬ p.plan.Nodup then Except.error "plan steps must be pairwise distinct"
  else if p.expanded_topics.length > 10 then Except.error "no more than 10 expanded topics"
  else Except.ok p

/-- The `PlannerOutput` of the first `PlanPrompt` example in src/prompts.py,
verbatim (Python's adjacent string literals concatenated). -/
def plannerExample1 : PlannerOutput :=
  { reasoning_on_topics := "Break the generic request into concrete, decision-making topics that directly affect suitability: intended terrain and riding profile, budget-constrained model shortlist (2024–2025), fit and geometry for 5'10\" rider, frame material trade-offs, drivetrain configuration (1x vs 2x) for mixed terrain, tire clearance and wheel/tire compatibility (tubeless), braking and mounting points for endurance comfort, and authoritative review sources for triangulation. Limit to <=10 distinct topics."
    expanded_topics :=
      [ "Riding profile and terrain requirements (endurance, mixed surface)",
        "Model shortlist 2024–2025 within ~$2,500 budget",
        "Fit guidance and endurance geometry for 5'10\" rider",
        "Frame material trade-offs (alloy vs carbon vs steel) for comfort",
        "Drivetrain choice trade-offs (1x vs 2x) for varied gradients",
        "Tire clearance, tubeless compatibility, and wheel standards",
        "Mounting points (bags, extra bottles) and comfort features",
        "Reliable review sources and long-ride test impressions" ]
    reasoning_on_plan := "Choose exactly three non-overlapping steps that each answer a single, specific question while covering the decision funnel: (1) confirm a budget-constrained model pool; (2) determine fit/geometry for the rider; (3) compare key build trade-offs for endurance comfort."
    plan :=
      [ "Which 2024–2025 gravel bike models under $2,500 are best-reviewed for endurance comfort on mixed terrain (list 5–8 models with sources)?",
        "What size and endurance-oriented geometry characteristics best fit a 5'10\" (178 cm) rider among those models (reach, stack, size guidance)?",
        "For long mixed-terrain rides at this budget, what are the practical trade-offs between frame materials and 1x vs 2x drivetrains for comfort and range?" ] }

/-- A planner output with only two plan steps, used to exercise rejection. -/
def twoStepPlannerOutput : PlannerOutput :=
  { reasoning_on_topics := "Single factual topic."
    expanded_topics := ["Capital of France"]
    reasoning_on_plan := "Two steps suffice here."
    plan := ["Find the capital of France", "Verify with a second source"] }

/-- Embedding of a langchain `Document` as consumed by `retrieve_docs`
(src/mcp_retrieval.py): a text plus a string-keyed metadata dictionary. -/
structure Document where
  page_content : String
  metadata : List (String × String)
deriving Repr, DecidableEq

/-- Python's `dict.get(key)` on the metadata dictionary: the value bound to
the first occurrence of `key`, if any. -/
def metaGet (m : List (String × String)) (k : String) : Option String :=
  (m.find? fun p => p.1 == k).map Prod.snd

/-- Embedding of the pydantic model `DocModel` (src/mcp_retrieval.py). -/
structure DocModel where
  content : String
  url : Option String
  title : Option String
deriving Repr, DecidableEq

/-- The list-comprehension body of `retrieve_docs`: build a `DocModel` from a
retrieved document, reading `url` and `title` from its metadata with `.get`. -/
def docToModel (doc : Document) : DocModel :=
  { content := doc.page_content
    url := metaGet doc.metadata "url"
    title := metaGet doc.metadata "title" }

/-- Embedding of the tool `retrieve_docs` (src/mcp_retrieval.py).  The
retrieval backend (`get_tool_client().retriever.ainvoke(query, k=top_k)`) is
an external collaborator, abstracted as a function from query and `k` to a
document list; `retrieve_docs` maps its results into `DocModel`s. -/
def retrieve_docs (retriever : String → Nat → List Document) (query : String)
    (top_k : Nat) : List DocModel :=
  (retriever query top_k).map docToModel

/-- The default value of the `top_k` parameter of `retrieve_docs`. -/
def retrieve_docs_default_top_k : Nat := 3

/-- `retrieve_docs` called without an explicit `top_k`, using the default. -/
def retrieve_docsD (retriever : String → Nat → List Document) (query : String) :
    List DocModel :=
  retrieve_docs retriever query retrieve_docs_default_top_k

/-- The two documents of the first `CitationPrompt` example (src/prompts.py). -/
def climateDocs : List Document :=
  [ { page_content := "The main topic is about climate change."
      metadata := [("title", "Climate Change"), ("url", "https://example.com/climate_change")] },
    { page_content := "Climate change is a significant global challenge."
      metadata := [("title", "Global Challenge"), ("url", "https://example.com/global_challenge")] } ]

/-- A concrete retrieval backend over `climateDocs` honouring the `top_k`
contract, used as a witness input. -/
def climateRetriever : String → Nat → List Document :=
  fun _ k => climateDocs.take k

/-- Modelled from the spec: the actions available to a Research Worker.
The worker loop itself is not in src/ (src/prompts.py ships only the
`subagentPrompt` text that instructs it), so the loop is modelled from the
spec's state machine: search-type calls (retrieval or web search combined),
the non-counting `note` reflection, and answering. -/
inductive WorkerAction where
  | search
  | note
  | answer
deriving Repr, DecidableEq

/-- Modelled from the spec: the budget-relevant state of a Research Worker,
counting issued search-type calls and whether the loop has terminated. -/
structure WorkerState where
  searchCalls : Nat
  finished : Bool
deriving Repr, DecidableEq

/-- The initial worker state: no search calls issued, loop running. -/
def workerInit : WorkerState := ⟨0, false⟩

/-- Modelled from the spec: one step of the Research Worker loop.  A `note`
reflection does not count against the budget; an `answer` terminates; a
`search` is issued only while the budget allows, and a worker whose budget is
exhausted stops and answers instead of issuing a further search. -/
def workerStep (maxToolCalls : Nat) (s : WorkerState) (a : WorkerAction) : WorkerState :=
  if s.finished then s
  else
    match a with
    | WorkerAction.answer => ⟨s.searchCalls, true⟩
    | WorkerAction.note => s
    | WorkerAction.search =>
        if s.searchCalls < maxToolCalls then ⟨s.searchCalls + 1, s.finished⟩
        else ⟨s.searchCalls, true⟩

/-- Modelled from the spec: a whole worker execution, folding an arbitrary
sequence of attempted actions (the strategy is the external model's choice)
over the budgeted step function. -/
def workerRun (maxToolCalls : Nat) (acts : List WorkerAction) : WorkerState :=
  acts.foldl (workerStep maxToolCalls) workerInit

/-- Modelled from the spec: the scheduling events of a Research Supervisor
run — dispatching a pending task to a worker, or a worker completing. -/
inductive SchedEvent where
  | dispatch
  | complete
deriving Repr, DecidableEq

/-- Modelled from the spec: the Supervisor's scheduling state — tasks in
flight, tasks still queued, tasks completed. -/
structure SchedState where
  inflight : Nat
  pending : Nat
  completed : Nat
deriving Repr, DecidableEq

/-- The initial scheduling state: all tasks pending, none in flight. -/
def schedInit (tasks : Nat) : SchedState := ⟨0, tasks, 0⟩

/-- Modelled from the spec: one scheduling transition.  A dispatch happens
only when a concurrency slot is free and a task is queued (excess tasks keep
queueing); a completion frees a slot. -/
def schedStep (bound : Nat) (s : SchedState) : SchedEvent → SchedState
  | SchedEvent.dispatch =>
      if s.inflight < bound ∧ 0 < s.pending then
        ⟨s.inflight + 1, s.pending - 1, s.completed⟩
      else s
  | SchedEvent.complete =>
      if 0 < s.inflight then ⟨s.inflight - 1, s.pending, s.completed + 1⟩
      else s

/-- Modelled from the spec: a whole Supervisor run over an arbitrary event
sequence, starting from `tasks` pending tasks. -/
def schedRun (bound tasks : Nat) (evs : List SchedEvent) : SchedState :=
  evs.foldl (schedStep bound) (schedInit tasks)

/-- The scheduling invariant: the in-flight count never exceeds the
concurrency bound, and tasks are conserved between the pending queue, the
in-flight set and the completed set. -/
def schedInv (bound tasks : Nat) (s : SchedState) : Prop :=
  s.inflight ≤ bound ∧ s.inflight + s.pending + s.completed = tasks

/-! ## Helper lemmas -/

/-- The rendering loop is a map of the single-statement rendering. -/
theorem format_statements_eq_map (l : List AnswerStatement) :
    format_statements l = l.map renderStatement := by
  induction l with
  | nil => rfl
  | cons s rest ih => simp [format_statements, ih]

/-! ## Claims about the citation rendering -/

/-- Claim C1, counterexample: for the cited climate statement of the
`CitationPrompt` example, `format_response` does not produce the
single-bracket line `<statement> [<title>](<url>)` stated by the claim. -/
theorem renderStatement_not_single_bracket :
    renderStatement climateStatement ≠
      "* The main topic is about climate change. [Climate Change](https://example.com/climate_change)" := by
  decide

/-- Claim C1, amended: for every statement whose reference url and reference
title are both present and non-empty, `format_response` renders the line
`<statement> [[<title>](<url>)]` — the markdown link fragment is wrapped in
one additional pair of literal square brackets. -/
theorem renderStatement_cited_format (s : AnswerStatement) (u t : String)
    (hu : s.reference_url = some u) (ht : s.reference_title = some t)
    (hu0 : u ≠ "") (ht0 : t ≠ "") :
    renderStatement s = s.answer_sentece ++ " [[" ++ t ++ "](" ++ u ++ ")]"
    ∧ format_response ⟨[s]⟩ = s.answer_sentece ++ " [[" ++ t ++ "](" ++ u ++ ")]" := by
  have hrender : renderStatement s = s.answer_sentece ++ " [[" ++ t ++ "](" ++ u ++ ")]" := by
    unfold renderStatement
    rw [hu, ht]
    simp [pyTruthy, bne_iff_ne, hu0, ht0]
  refine ⟨hrender, ?_⟩
  show String.intercalate "\n" (format_statements [s]) = _
  rw [show format_statements [s] = [renderStatement s] from rfl, hrender]
  rfl

/-- Claim C1, witness: the amended format at the climate example statement. -/
theorem renderStatement_cited_format_witness :
    renderStatement climateStatement =
      climateStatement.answer_sentece ++ " [[" ++ "Climate Change" ++ "](" ++ "https://example.com/climate_change" ++ ")]"
    ∧ format_response ⟨[climateStatement]⟩ =
      climateStatement.answer_sentece ++ " [[" ++ "Climate Change" ++ "](" ++ "https://example.com/climate_change" ++ ")]" :=
  renderStatement_cited_format climateStatement "https://example.com/climate_change" "Climate Change"
    rfl rfl (by decide) (by decide)

/-- Claim C2: rendering is all-or-nothing — a statement with no citation, or
with only one of url/title present, renders as its literal text alone, the
partial citation contributing nothing to the output. -/
theorem renderStatement_partial_citation_plain (s : AnswerStatement)
    (h : s.reference_url = none ∨ s.reference_title = none) :
    renderStatement s = s.answer_sentece := by
  unfold renderStatement
  rcases h with h | h <;> rw [h] <;> simp [pyTruthy]

/-- Claim C2, witness: the uncited heading statement and the url-only
statement both render as their literal text. -/
theorem renderStatement_partial_citation_plain_witness :
    renderStatement headingStatement = headingStatement.answer_sentece
    ∧ renderStatement partialStatement = partialStatement.answer_sentece :=
  ⟨renderStatement_partial_citation_plain headingStatement (Or.inl rfl),
   renderStatement_partial_citation_plain partialStatement (Or.inr rfl)⟩

/-- Claim C3: `format_response` is the newline-join of the per-statement
renderings in list order — line `i` of the rendered list is the rendering of
statement `i`, so no statement is dropped, duplicated or reordered. -/
theorem format_response_preserves_order (a : AnswerWithCitations) :
    format_response a = String.intercalate "\n" (a.statements.map renderStatement)
    ∧ (format_statements a.statements).length = a.statements.length
    ∧ ∀ i : Nat, (format_statements a.statements)[i]?
        = (a.statements[i]?).map renderStatement := by
  refine ⟨?_, ?_, ?_⟩
  · unfold format_response
    rw [format_statements_eq_map]
  · rw [format_statements_eq_map]
    exact List.length_map _ _
  · intro i
    rw [format_statements_eq_map]
    exact List.getElem?_map _ _ _

/-- Claim C4: rendering is deterministic — `format_response` is a pure
function of the statements list, so two calls on the same statements yield
identical markdown. -/
theorem format_response_deterministic (a b : AnswerWithCitations)
    (h : a.statements = b.statements) :
    format_response a = format_response b := by
  unfold format_response
  rw [h]

/-- Claim C4, witness: rendering the two-statement example answer twice
yields the same markdown string. -/
theorem format_response_deterministic_witness :
    format_response ⟨[headingStatement, climateStatement]⟩
      = format_response ⟨[headingStatement, climateStatement]⟩ :=
  format_response_deterministic ⟨[headingStatement, climateStatement]⟩
    ⟨[headingStatement, climateStatement]⟩ rfl

/-- Claim C10: an empty-string reference url or reference title is treated
like an absent one — presence is tested by Python truthiness, so the
statement renders as plain text with no link fragment. -/
theorem empty_reference_string_renders_plain (s : AnswerStatement)
    (h : s.reference_url = some "" ∨ s.reference_title = some "") :
    renderStatement s = s.answer_sentece := by
  unfold renderStatement
  rcases h with h | h <;> rw [h] <;> simp [pyTruthy]

/-- Claim C10, witness: the statement with an empty-string url and a
non-empty title renders as its literal text. -/
theorem empty_reference_string_renders_plain_witness :
    renderStatement emptyUrlStatement = emptyUrlStatement.answer_sentece :=
  empty_reference_string_renders_plain emptyUrlStatement (Or.inl rfl)

/-! ## Claims about the clarification and planner models -/

/-- Claim C5, counterexample: `ClarificationOutput` has no validator, so a
value with `clarification_is_required = true` and non-empty
`final_statements` is constructible and violates the claimed pairing. -/
theorem clarificationOutput_pairing_not_enforced :
    (ClarificationOutput.mk true none ["Capital of France"]).clarification_is_required = true
    ∧ (ClarificationOutput.mk true none ["Capital of France"]).final_statements ≠ []
    ∧ clarificationInvariant (ClarificationOutput.mk true none ["Capital of France"]) = false := by
  refine ⟨rfl, ?_, rfl⟩
  decide

/-- Claim C5, amended: the pairing is not enforced by construction, but every
`ClarificationOutput` example value shipped in `ClarificationPrompt` does
satisfy it. -/
theorem clarification_examples_satisfy_pairing :
    (clarificationExamples.all fun e => clarificationInvariant e.2) = true := by
  decide

/-- Claim C6: under the spec-modelled caller validation, every accepted
`PlannerOutput` has exactly 3 pairwise-distinct plan steps and at most 10
expanded topics and is returned unchanged (never truncated or padded), and an
output whose plan does not have exactly 3 steps is rejected. -/
theorem planner_validation_exact (p : PlannerOutput) :
    (∀ q : PlannerOutput, validatePlannerOutput p = Except.ok q →
      q = p ∧ q.plan.length = 3 ∧ q.plan.Nodup ∧ q.expanded_topics.length ≤ 10)
    ∧ (p.plan.length ≠ 3 → ∀ q : PlannerOutput, validatePlannerOutput p ≠ Except.ok q) := by
  constructor
  · intro q hq
    unfold validatePlannerOutput at hq
    split_ifs at hq with h1 h2 h3
    injection hq with hpq
    subst hpq
    exact ⟨rfl, by omega, h2, by omega⟩
  · intro hlen q hq
    unfold validatePlannerOutput at hq
    rw [if_pos hlen] at hq
    exact Except.noConfusion hq

/-- Claim C6, witness: the first `PlanPrompt` example output is accepted
unchanged with its 3 distinct steps and 8 topics, and the two-step output is
rejected. -/
theorem planner_validation_exact_witness :
    (plannerExample1 = plannerExample1 ∧ plannerExample1.plan.length = 3
      ∧ plannerExample1.plan.Nodup ∧ plannerExample1.expanded_topics.length ≤ 10)
    ∧ validatePlannerOutput twoStepPlannerOutput ≠ Except.ok twoStepPlannerOutput :=
  ⟨(planner_validation_exact plannerExample1).1 plannerExample1 (by rfl),
   (planner_validation_exact twoStepPlannerOutput).2 (by decide) twoStepPlannerOutput⟩

/-! ## Claim about the retrieval tool -/

/-- Claim C7: assuming the retrieval backend honours its `top_k` contract,
`retrieve_docs` returns at most `top_k` items, item `i` is the `DocModel`
built from retrieved document `i` (whose `url`/`title` are absent exactly
when the metadata lacks those keys), and the omitted `top_k` defaults to 3. -/
theorem retrieve_docs_contract (retriever : String → Nat → List Document)
    (query : String) (top_k : Nat)
    (hbackend : (retriever query top_k).length ≤ top_k) :
    (retrieve_docs retriever query top_k).length ≤ top_k
    ∧ (∀ i : Nat, (retrieve_docs retriever query top_k)[i]?
        = ((retriever query top_k)[i]?).map docToModel)
    ∧ (∀ doc : Document,
        (docToModel doc).content = doc.page_content
        ∧ ((docToModel doc).url = none ↔ ∀ p ∈ doc.metadata, p.1 ≠ "url")
        ∧ ((docToModel doc).title = none ↔ ∀ p ∈ doc.metadata, p.1 ≠ "title"))
    ∧ retrieve_docsD retriever query = retrieve_docs retriever query 3 := by
  refine ⟨?_, ?_, ?_, rfl⟩
  · unfold retrieve_docs
    rw [List.length_map]
    exact hbackend
  · intro i
    unfold retrieve_docs
    exact List.getElem?_map _ _ _
  · intro doc
    refine ⟨rfl, ?_, ?_⟩ <;>
      simp [docToModel, metaGet, List.find?_eq_none]

/-- Claim C7, witness: the contract instantiated at the climate retriever,
the climate example question and the default 3. -/
theorem retrieve_docs_contract_witness :
    (retrieve_docs climateRetriever "What is the main topic of the document?" 3).length ≤ 3
    ∧ retrieve_docsD climateRetriever "What is the main topic of the document?"
        = retrieve_docs climateRetriever "What is the main topic of the document?" 3 :=
  let h := retrieve_docs_contract climateRetriever "What is the main topic of the document?" 3
    (by decide)
  ⟨h.1, h.2.2.2⟩

/-! ## Claims about the worker and supervisor control loops -/

/-- The worker step never pushes the search-call count above the budget. -/
theorem workerStep_searchCalls_le (b : Nat) (s : WorkerState) (a : WorkerAction)
    (h : s.searchCalls ≤ b) : (workerStep b s a).searchCalls ≤ b := by
  by_cases hf : s.finished
  · have hstep : workerStep b s a = s := by simp [workerStep, hf]
    rw [hstep]
    exact h
  · cases a with
    | answer =>
        have hstep : workerStep b s WorkerAction.answer = ⟨s.searchCalls, true⟩ := by
          simp [workerStep, hf]
        rw [hstep]
        exact h
    | note =>
        have hstep : workerStep b s WorkerAction.note = s := by simp [workerStep, hf]
        rw [hstep]
        exact h
    | search =>
        by_cases hlt : s.searchCalls < b
        · have hstep : workerStep b s WorkerAction.search = ⟨s.searchCalls + 1, s.finished⟩ := by
            simp [workerStep, hf, hlt]
          rw [hstep]
          show s.searchCalls + 1 ≤ b
          omega
        · have hstep : workerStep b s WorkerAction.search = ⟨s.searchCalls, true⟩ := by
            simp [workerStep, hf, hlt]
          rw [hstep]
          exact h

/-- The budget bound is preserved along any action sequence. -/
theorem workerFoldl_searchCalls_le (b : Nat) :
    ∀ (acts : List WorkerAction) (s : WorkerState),
      s.searchCalls ≤ b → (acts.foldl (workerStep b) s).searchCalls ≤ b := by
  intro acts
  induction acts with
  | nil => intro s h; exact h
  | cons a rest ih =>
      intro s h
      exact ih _ (workerStep_searchCalls_le b s a h)

/-- Claim C8: over any worker execution, the number of search-type calls
never exceeds the budget; a worker that has already issued `maxToolCalls`
searches does not issue another on a further search attempt; and a `note`
reflection never counts against the budget. -/
theorem worker_search_budget (maxToolCalls : Nat) (acts : List WorkerAction) :
    (workerRun maxToolCalls acts).searchCalls ≤ maxToolCalls
    ∧ (∀ s : WorkerState, s.searchCalls = maxToolCalls →
        (workerStep maxToolCalls s WorkerAction.search).searchCalls = maxToolCalls)
    ∧ (∀ s : WorkerState,
        (workerStep maxToolCalls s WorkerAction.note).searchCalls = s.searchCalls) := by
  refine ⟨workerFoldl_searchCalls_le maxToolCalls acts workerInit (Nat.zero_le _), ?_, ?_⟩
  · intro s hs
    by_cases hf : s.finished
    · have hstep : workerStep maxToolCalls s WorkerAction.search = s := by
        simp [workerStep, hf]
      rw [hstep]
      exact hs
    · have hnlt : ¬ s.searchCalls < maxToolCalls := by omega
      have hstep : workerStep maxToolCalls s WorkerAction.search = ⟨s.searchCalls, true⟩ := by
        simp [workerStep, hf, hnlt]
      rw [hstep]
      exact hs
  · intro s
    by_cases hf : s.finished
    · have hstep : workerStep maxToolCalls s WorkerAction.note = s := by
        simp [workerStep, hf]
      rw [hstep]
    · have hstep : workerStep maxToolCalls s WorkerAction.note = s := by
        simp [workerStep, hf]
      rw [hstep]

/-- Claim C8, witness: with budget 3 a worker attempting five searches issues
at most 3; at the budget a further search attempt issues no call; a note
leaves the count unchanged. -/
theorem worker_search_budget_witness :
    (workerRun 3 [WorkerAction.search, WorkerAction.note, WorkerAction.search,
        WorkerAction.search, WorkerAction.search]).searchCalls ≤ 3
    ∧ (workerStep 3 ⟨3, false⟩ WorkerAction.search).searchCalls = 3
    ∧ (workerStep 3 ⟨1, false⟩ WorkerAction.note).searchCalls
        = (WorkerState.mk 1 false).searchCalls :=
  let h := worker_search_budget 3 [WorkerAction.search, WorkerAction.note, WorkerAction.search,
    WorkerAction.search, WorkerAction.search]
  ⟨h.1, h.2.1 ⟨3, false⟩ rfl, h.2.2 ⟨1, false⟩⟩

/-- One scheduling transition preserves the concurrency and conservation
invariant. -/
theorem schedStep_inv (bound tasks : Nat) (s : SchedState) (e : SchedEvent)
    (h : schedInv bound tasks s) : schedInv bound tasks (schedStep bound s e) := by
  obtain ⟨h1, h2⟩ := h
  cases e with
  | dispatch =>
      by_cases hc : s.inflight < bound ∧ 0 < s.pending
      · have hstep : schedStep bound s SchedEvent.dispatch
            = ⟨s.inflight + 1, s.pending - 1, s.completed⟩ := by
          simp [schedStep, hc]
        rw [hstep]
        show s.inflight + 1 ≤ bound ∧ s.inflight + 1 + (s.pending - 1) + s.completed = tasks
        omega
      · have hstep : schedStep bound s SchedEvent.dispatch = s := by
          simp [schedStep, hc]
        rw [hstep]
        exact ⟨h1, h2⟩
  | complete =>
      by_cases hc : 0 < s.inflight
      · have hstep : schedStep bound s SchedEvent.complete
            = ⟨s.inflight - 1, s.pending, s.completed + 1⟩ := by
          simp [schedStep, hc]
        rw [hstep]
        show s.inflight - 1 ≤ bound ∧ s.inflight - 1 + s.pending + (s.completed + 1) = tasks
        omega
      · have hstep : schedStep bound s SchedEvent.complete = s := by
          simp [schedStep, hc]
        rw [hstep]
        exact ⟨h1, h2⟩

/-- The invariant is preserved along any event sequence. -/
theorem schedFoldl_inv (bound tasks : Nat) :
    ∀ (evs : List SchedEvent) (s : SchedState),
      schedInv bound tasks s → schedInv bound tasks (evs.foldl (schedStep bound) s) := by
  intro evs
  induction evs with
  | nil => intro s h; exact h
  | cons e rest ih =>
      intro s h
      exact ih _ (schedStep_inv bound tasks s e h)

/-- Claim C9: over any Supervisor run, the number of in-flight research tasks
never exceeds the concurrency bound, and tasks are conserved between pending,
in-flight and completed (excess tasks queue until a slot frees up). -/
theorem supervisor_concurrency_bound (bound tasks : Nat) (evs : List SchedEvent) :
    (schedRun bound tasks evs).inflight ≤ bound
    ∧ (schedRun bound tasks evs).inflight + (schedRun bound tasks evs).pending
        + (schedRun bound tasks evs).completed = tasks := by
  have h : schedInv bound tasks (schedRun bound tasks evs) :=
    schedFoldl_inv bound tasks evs (schedInit tasks) ⟨Nat.zero_le _, by simp [schedInit]⟩
  exact ⟨h.1, h.2⟩
